import Mathlib

/-!
Verification development for the retirement-projection core
(`backend/retirement_calculator.py` and `backend/models.py`).

The Python floats are modelled by exact rationals (`ℚ`), Python ints by `ℤ`,
and `datetime.date` by a year/month/day triple with the same lexicographic
order and a proleptic-Gregorian day count for date subtraction.
-/

set_option maxRecDepth 8000
set_option maxHeartbeats 4000000

attribute [local semireducible] Rat.mul Rat.inv Rat.add Rat.sub

/-- Model of `datetime.date`: a year/month/day triple.  Python compares dates
lexicographically and subtracts them via their position in the proleptic
Gregorian calendar. -/
structure PyDate where
  year : Int
  month : Int
  day : Int
deriving DecidableEq

/-- Python `date` comparison `a < b` (lexicographic on year, month, day). -/
def PyDate.ltB (a b : PyDate) : Bool :=
  if a.year < b.year then true
  else if b.year < a.year then false
  else if a.month < b.month then true
  else if b.month < a.month then false
  else if a.day < b.day then true
  else false

/-- Python `date` comparison `a <= b`. -/
def PyDate.leB (a b : PyDate) : Bool :=
  !(PyDate.ltB b a)

/-- Day number of a date in the proleptic Gregorian calendar
(days since the Unix epoch, as produced by `(d1 - d2).days` differences).
Standard civil-from-days arithmetic; divisions are floor divisions. -/
def PyDate.toDays (d : PyDate) : Int :=
  let y := if d.month ≤ 2 then d.year - 1 else d.year
  let era := Int.fdiv y 400
  let yoe := y - era * 400
  let mp := Int.emod (d.month + 9) 12
  let doy := Int.fdiv (153 * mp + 2) 5 + d.day - 1
  let doe := yoe * 365 + Int.fdiv yoe 4 - Int.fdiv yoe 100 + doy
  era * 146097 + doe - 719468

/-- Function `add_months_to_date` from `retirement_calculator.py`: naive month addition
that clamps the day to at most 28. -/
def add_months_to_date (d : PyDate) (months : Int) : PyDate :=
  let month := d.month - 1 + months
  let year := d.year + Int.fdiv month 12
  let month2 := Int.emod month 12 + 1
  let day := min d.day 28
  ⟨year, month2, day⟩

/-- Python `int()` applied to a rational: truncation toward zero. -/
def pyTrunc (q : ℚ) : Int :=
  if q < 0 then -(Rat.floor (-q)) else Rat.floor q

/-- Python `round(x)` for ties-to-even (banker's) rounding of a rational. -/
def roundHalfEven (q : ℚ) : Int :=
  let f := Rat.floor q
  let r := q - f
  if r < 1/2 then f
  else if 1/2 < r then f + 1
  else if f % 2 = 0 then f else f + 1

/-- Python `round(x, 2)`: round to two decimal places, ties to even. -/
def round2 (q : ℚ) : ℚ :=
  (roundHalfEven (q * 100) : ℚ) / 100

/-- The `start_date` field of a profile: absent (or falsy), present but not an
ISO date (`datetime.fromisoformat` raises), or present and parsed. -/
inductive StartDate where
  | absent : StartDate
  | malformed : StartDate
  | parsed : PyDate → StartDate
deriving DecidableEq

/-- The profile fields consumed by the calculator (`models.py`, class
`Profile`).  Monetary amounts and rates are rationals, year counts and the
age are integers. -/
structure Profile where
  base_age : Int
  start_date : StartDate
  total_assets : ℚ
  fixed_assets : ℚ
  monthly_salary_net : ℚ
  government_retirement_income : ℚ
  monthly_return_rate : ℚ
  fixed_assets_growth_rate : ℚ
  investment_tax_rate : ℚ
  investment_taxable_percentage : ℚ
  end_of_salary_years : Int
  government_retirement_start_years : Int
  government_retirement_adjustment : ℚ
  monthly_expense_recurring : ℚ
  rent : ℚ
  one_time_annual_expense : ℚ
  annual_inflation : ℚ
deriving DecidableEq

/-- Property `Profile.years_to_retirement` (`models.py` lines 71-100): an explicit
parsable `start_date` wins, then a positive
`government_retirement_start_years`, then 0.  A malformed `start_date` falls
through to the later branches. -/
def years_to_retirement (p : Profile) (todayYear : Int) : Int :=
  match p.start_date with
  | .parsed d => max 0 (d.year - todayYear)
  | _ =>
    if 0 < p.government_retirement_start_years
    then p.government_retirement_start_years
    else 0

/-- One emitted timeline row (the dict appended at lines 217-230 of
`retirement_calculator.py`).  The period label is kept as its two anchor
dates instead of a formatted string. -/
structure TimelineRow where
  year : Int
  age : Int
  periodStart : PyDate
  periodEnd : PyDate
  value_invested : ℚ
  total_expenses : ℚ
  total_income_salary : ℚ
  total_income_retirement : ℚ
  total_to_be_added : ℚ
  taxes_over_investments : ℚ
  net_cashflow : ℚ
  final_value : ℚ
deriving DecidableEq

/-- The non-date payload of a timeline row, used to compare runs whose
period labels differ only by a calendar-year shift. -/
def TimelineRow.data (r : TimelineRow) :
    Int × Int × ℚ × ℚ × ℚ × ℚ × ℚ × ℚ × ℚ × ℚ :=
  (r.year, r.age, r.value_invested, r.total_expenses, r.total_income_salary,
   r.total_income_retirement, r.total_to_be_added, r.taxes_over_investments,
   r.net_cashflow, r.final_value)

/-- The mutable state threaded through the year loop of
`calculate_retirement`: running balance, tax pending from last year's gains,
projected monthly government pension, the retirement-start snapshot
(`retirement_start_fund_value`), and the accumulated timeline. -/
structure LoopState where
  current_value : ℚ
  pending_tax : ℚ
  projected : ℚ
  snapshot : Option ℚ
  timeline : List TimelineRow
deriving DecidableEq

/-- The per-call constants of the year loop: profile, aligned base year,
retirement-start (timeline-start) date, government pension start date,
salary end date, resolved monthly growth rate, and target age. -/
structure Ctx where
  p : Profile
  base_year : Int
  rsd : PyDate
  gov_date : PyDate
  eos_date : PyDate
  growth : ℚ
  targetAge : Int

/-- Anchor `timeline_start_date` (lines 32-39): the parsed `start_date` when
present and valid, otherwise January 1 of the current year. -/
def timelineStartDate (p : Profile) (today : PyDate) : PyDate :=
  match p.start_date with
  | .parsed d => d
  | _ => ⟨today.year, 1, 1⟩

/-- The date-anchoring preamble of `calculate_retirement` (lines 26-83),
assembled into a `Ctx`. -/
def mkCtx (p : Profile) (today : PyDate) (expected_return_rate : ℚ)
    (target_age : Int) : Ctx :=
  let tsd := timelineStartDate p today
  let gov : PyDate := ⟨tsd.year + p.government_retirement_start_years, tsd.month, tsd.day⟩
  let rsd := tsd
  let ytr := years_to_retirement p today.year
  let daysToRet : Int := rsd.toDays - today.toDays
  let actual : ℚ := (daysToRet : ℚ) / (1461/4)
  let base_year : Int :=
    if 1/2 < |actual - (ytr : ℚ)| then rsd.year - pyTrunc actual
    else rsd.year - ytr
  let eos : PyDate := ⟨today.year + p.end_of_salary_years, today.month, today.day⟩
  let growth : ℚ :=
    if 0 < p.monthly_return_rate then p.monthly_return_rate
    else if 0 < expected_return_rate then expected_return_rate / 12
    else 0
  ⟨p, base_year, rsd, gov, eos, growth, target_age⟩

/-- One month of the monthly loop (lines 136-180): inflation-scaled
expenses and salary, pension received once the month reaches the
government retirement start date, and the growth-plus-net update of the
balance, alongside the yearly accumulators. -/
def monthStep (c : Ctx) (year_start : PyDate) (salary_active : Bool)
    (inflation_years : ℕ) (proj : ℚ)
    (acc : ℚ × ℚ × ℚ × ℚ) (m : ℕ) : ℚ × ℚ × ℚ × ℚ :=
  let month_date := add_months_to_date year_start (m : Int)
  let infl : ℚ := (1 + c.p.annual_inflation) ^ inflation_years
  let monthly_expense := (c.p.monthly_expense_recurring + c.p.rent) * infl
  let monthly_one_time := c.p.one_time_annual_expense * infl / 12
  let total_monthly_expense := monthly_expense + monthly_one_time
  let monthly_salary := if salary_active then c.p.monthly_salary_net * infl else 0
  let received := PyDate.leB c.gov_date month_date
  let mri := if received then proj else 0
  let monthly_net := monthly_salary + mri - total_monthly_expense
  let mv :=
    if 0 < c.growth then acc.1 * (1 + c.growth) + monthly_net
    else acc.1 + monthly_net
  (mv, acc.2.1 + total_monthly_expense, acc.2.2.1 + monthly_salary, acc.2.2.2 + mri)

/-- The monthly loop of one simulated year (lines 119-180): returns the
compounded balance together with the yearly totals of expenses, salary
income and received pension income.  The source also computes a
`monthly_inflation` value with a fractional exponent that is never used;
it is omitted here. -/
def monthlyAccum (c : Ctx) (y : ℕ) (s : LoopState) : ℚ × ℚ × ℚ × ℚ :=
  let year_start : PyDate := ⟨c.base_year + (y : Int), c.rsd.month, 1⟩
  let salary_active := PyDate.ltB year_start c.eos_date
  let current_year := c.base_year + (y : Int)
  let start_year := c.rsd.year
  let inflation_years : ℕ :=
    if start_year ≤ current_year then (current_year - start_year).toNat else y
  (List.range 12).foldl
    (monthStep c year_start salary_active inflation_years s.projected)
    (s.current_value, 0, 0, 0)

/-- Value `final_value` of a simulated year (line 189): the compounded balance
minus the tax pending from the previous year. -/
def finalValueOf (c : Ctx) (y : ℕ) (s : LoopState) : ℚ :=
  (monthlyAccum c y s).1 - s.pending_tax

/-- Tax accrued on this year's investment gains, to be paid next year
(lines 232-235): gains exclude net contributions, are floored at zero, and
are scaled by the tax rate and the taxable percentage. -/
def taxThisYear (c : Ctx) (y : ℕ) (s : LoopState) : ℚ :=
  let a := monthlyAccum c y s
  let net_cashflow := a.2.2.1 + a.2.2.2 - a.2.1
  let gain := a.1 - s.current_value - net_cashflow
  max 0 gain * c.p.investment_tax_rate * c.p.investment_taxable_percentage

/-- The timeline row emitted for a simulated year (lines 210-230).
Monetary fields are rounded to two decimals at emission only. -/
def rowOf (c : Ctx) (y : ℕ) (s : LoopState) : TimelineRow :=
  let a := monthlyAccum c y s
  let cy := c.base_year + (y : Int)
  let sy := c.rsd.year
  let ysr := cy - sy
  { year := ysr + 1
  , age := c.p.base_age + (y : Int)
  , periodStart := ⟨sy + ysr, c.rsd.month, 1⟩
  , periodEnd := ⟨sy + ysr + 1, c.rsd.month, 1⟩
  , value_invested := round2 s.current_value
  , total_expenses := round2 a.2.1
  , total_income_salary := round2 a.2.2.1
  , total_income_retirement := round2 a.2.2.2
  , total_to_be_added := round2 (a.1 - s.current_value)
  , taxes_over_investments := round2 s.pending_tax
  , net_cashflow := round2 (a.2.2.1 + a.2.2.2 - a.2.1)
  , final_value := round2 (a.1 - s.pending_tax) }

/-- One full iteration of the year loop (lines 108-251 without the break
tests): the updated state plus the raw (unrounded) `final_value` used for
the depletion test.  The source's reset of `pending_tax` at the snapshot
(line 207) is unconditionally overwritten at line 244 before any read, so
the new `pending_tax` is always this year's accrued tax. -/
def yearBody (c : Ctx) (y : ℕ) (s : LoopState) : LoopState × ℚ :=
  let fv := finalValueOf c y s
  ( { current_value := fv
    , pending_tax := taxThisYear c y s
    , projected := s.projected * (1 + c.p.government_retirement_adjustment)
    , snapshot :=
        if c.base_year + (y : Int) = c.rsd.year ∧ s.snapshot = none
        then some s.current_value else s.snapshot
    , timeline :=
        s.timeline ++
          (if c.rsd.year ≤ c.base_year + (y : Int) then [rowOf c y s] else []) }
  , fv)

/-- The year loop (lines 105-251): runs while fuel lasts, stops without a
body when the age exceeds the target age, and stops after the body when the
post-tax final value is negative.  Called with fuel 200 (`max_years`). -/
def runLoop (c : Ctx) : ℕ → ℕ → LoopState → LoopState
  | 0, _, s => s
  | fuel + 1, y, s =>
    if c.targetAge < c.p.base_age + (y : Int) then s
    else
      let r := yearBody c y s
      if r.2 < 0 then r.1
      else runLoop c fuel (y + 1) r.1

/-- Number of loop-body executions performed by `runLoop` (same recursion,
same stopping rules). -/
def runCount (c : Ctx) : ℕ → ℕ → LoopState → ℕ
  | 0, _, _ => 0
  | fuel + 1, y, s =>
    if c.targetAge < c.p.base_age + (y : Int) then 0
    else
      let r := yearBody c y s
      if r.2 < 0 then 1
      else runCount c fuel (y + 1) r.1 + 1

/-- Pure iteration of `yearBody`: the state after `n` consecutive year
bodies starting at year index `y`, with no stopping rules. -/
def iterFrom (c : Ctx) : ℕ → LoopState → ℕ → LoopState
  | _, s, 0 => s
  | y, s, n + 1 => iterFrom c (y + 1) (yearBody c y s).1 n

/-- The initial loop state (lines 66-99): liquid investment, no pending
tax, pension projection at its profile value, no snapshot, empty timeline. -/
def initState (p : Profile) : LoopState :=
  ⟨max 0 (p.total_assets - p.fixed_assets), 0, p.government_retirement_income, none, []⟩

/-- The aggregate result of `calculate_retirement` (the fields of
`RetirementCalculation` plus the parts of the assumptions bag the
specification talks about). -/
structure RetirementCalculation where
  monthly_savings : ℚ
  total_retirement_fund : ℚ
  monthly_retirement_income : ℚ
  years_to_retirement : Int
  timeline : List TimelineRow
  monthly_growth_used : ℚ
  fixed_assets_at_retirement : ℚ
  target_age : Int
deriving DecidableEq

/-- Method `RetirementCalculator.calculate_retirement` (lines 21-287), with the
current wall-clock date passed explicitly. -/
def calculate_retirement (p : Profile) (today : PyDate)
    (expected_return_rate : ℚ) (target_age : Int) : RetirementCalculation :=
  let c := mkCtx p today expected_return_rate target_age
  let fin := runLoop c 200 0 (initState p)
  let monthly_expenses := p.monthly_expense_recurring + p.rent
  let ytr := years_to_retirement p today.year
  { monthly_savings := p.monthly_salary_net - monthly_expenses
  , total_retirement_fund := fin.snapshot.getD fin.current_value
  , monthly_retirement_income := p.government_retirement_income
  , years_to_retirement := ytr
  , timeline := fin.timeline
  , monthly_growth_used := c.growth
  , fixed_assets_at_retirement :=
      p.fixed_assets * (1 + p.fixed_assets_growth_rate) ^ ytr
  , target_age := target_age }

/-- Result record of `calculate_required_savings`. -/
structure RequiredSavings where
  required_monthly_savings : ℚ
  required_retirement_fund : ℚ
  target_monthly_income : ℚ
  target_annual_income : ℚ
  years_to_retirement : Int
deriving DecidableEq

/-- Method `RetirementCalculator.calculate_required_savings` (lines 289-321).
Python raises `ZeroDivisionError` when a float is divided by zero; both
such divisions are modelled by `none`. -/
def calculate_required_savings (target_monthly_income : ℚ)
    (ytr : Int) (expected_return_rate : ℚ) (inflation_rate : ℚ) :
    Option RequiredSavings :=
  let inflation_adjustment := (1 + inflation_rate) ^ ytr
  let target_annual_income := target_monthly_income * 12 * inflation_adjustment
  let safe_withdrawal_rate : ℚ := 4/100
  let required_fund := target_annual_income / safe_withdrawal_rate
  if 0 < expected_return_rate then
    let monthly_rate := expected_return_rate / 12
    let denom := ((1 + monthly_rate) ^ (ytr * 12) - 1) / monthly_rate
    if denom = 0 then none
    else some ⟨required_fund / denom, required_fund, target_monthly_income,
               target_annual_income, ytr⟩
  else
    if ((ytr * 12 : Int) : ℚ) = 0 then none
    else some ⟨required_fund / ((ytr * 12 : Int) : ℚ), required_fund,
               target_monthly_income, target_annual_income, ytr⟩

/-- Result record of `calculate_retirement_readiness` (the fields the
specification talks about). -/
structure ReadinessResult where
  readiness_score : ℚ
  current_savings_rate : ℚ
  monthly_savings : ℚ
  projected_retirement_income : ℚ
  current_monthly_expenses : ℚ
  calculation : RetirementCalculation
deriving DecidableEq

/-- The readiness-score total before the final clamp (lines 367-372): the
savings-rate term clamped to [0, 40], the emergency term clamped above at
20, plus the weighted coverage and leftover terms. -/
def readinessTotal (savings_rate emergency coverage leftover : ℚ) : ℚ :=
  min 40 (max 0 ((savings_rate / (15/100)) * 40)) +
  min 20 (emergency * 20) +
  coverage * 30 +
  leftover * 10

/-! ### Derived readiness quantities (spec §4.4)

These standalone definitions transcribe the derived quantities computed at
lines 330-365 of `calculate_retirement_readiness`; the main function below
is assembled from them. -/

/-- Savings rate (lines 331-333): `(salary - baseline expenses) / salary`,
or 0 when the salary is 0. -/
def savingsRateOf (p : Profile) : ℚ :=
  if 0 < p.monthly_salary_net
  then (p.monthly_salary_net - (p.monthly_expense_recurring + p.rent)) / p.monthly_salary_net
  else 0

/-- Emergency-fund coverage (lines 363-365): assets against six months of
expenses, clamped above at 1. -/
def emergencyFracOf (p : Profile) : ℚ :=
  min 1 (p.total_assets / max ((p.monthly_expense_recurring + p.rent) * 6) 1)

/-- Index of the first depleted timeline row (line 340). -/
def depletionIdx (p : Profile) (today : PyDate) (er : ℚ) : Option ℕ :=
  (calculate_retirement p today er 100).timeline.findIdx? (fun r => decide (r.final_value < 0))

/-- Age at depletion, else at the last simulated row, else the base age
(line 343). -/
def ageWhenDeplete (p : Profile) (today : PyDate) (er : ℚ) : Int :=
  let tl := (calculate_retirement p today er 100).timeline
  if tl.isEmpty then p.base_age
  else
    match depletionIdx p today er with
    | some i => ((tl[i]?).map TimelineRow.age).getD p.base_age
    | none => ((tl.getLast?).map TimelineRow.age).getD p.base_age

/-- Longevity coverage toward age 100 (lines 345-347), clamped to [0, 1]. -/
def coverageFracOf (p : Profile) (today : PyDate) (er : ℚ) : ℚ :=
  let needed_years : Int := max 1 (100 - p.base_age)
  let covered_years : Int := max 0 (ageWhenDeplete p today er - p.base_age)
  max 0 (min 1 ((covered_years : ℚ) / (needed_years : ℚ)))

/-- Terminal buffer (lines 350-359): last final value against two years of
current expenses, 0 when depleted, clamped to [0, 1]. -/
def leftoverFracOf (p : Profile) (today : PyDate) (er : ℚ) : ℚ :=
  let tl := (calculate_retirement p today er 100).timeline
  let last_final_value : ℚ :=
    if tl.isEmpty then 0
    else
      match depletionIdx p today er with
      | some _ => 0
      | none => ((tl.getLast?).map TimelineRow.final_value).getD 0
  let yearly_expenses_now := (p.monthly_expense_recurring + p.rent) * 12
  let buffer_target := max 1 (yearly_expenses_now * 2)
  max 0 (min 1 (last_final_value / buffer_target))

/-- Clamp to the interval [0, 100] (line 373). -/
def clamp0100 (q : ℚ) : ℚ := min 100 (max 0 q)

/-- The readiness-score formula exactly as the specification words it
(spec §4.4/§8): `40 × min(1, savings_rate / 0.15) + 20 × emergency +
30 × coverage + 10 × leftover`, clamped to [0, 100], over the derived
quantities above.  Written from the specification for comparison with the
implementation. -/
def readinessScoreClaim (p : Profile) (today : PyDate) (er : ℚ) : ℚ :=
  clamp0100 (40 * min 1 (savingsRateOf p / (15/100)) + 20 * emergencyFracOf p +
             30 * coverageFracOf p today er + 10 * leftoverFracOf p today er)

/-- Method `RetirementCalculator.calculate_retirement_readiness` (lines 323-397),
assembled from the derived quantities above; the inner projection runs with
the default target age 100. -/
def calculate_retirement_readiness (p : Profile) (today : PyDate)
    (expected_return_rate : ℚ) : ReadinessResult :=
  let calcResult := calculate_retirement p today expected_return_rate 100
  let monthly_expenses := p.monthly_expense_recurring + p.rent
  let monthly_savings := p.monthly_salary_net - monthly_expenses
  let savings_rate := savingsRateOf p
  let readiness_score :=
    readinessTotal savings_rate (emergencyFracOf p)
      (coverageFracOf p today expected_return_rate)
      (leftoverFracOf p today expected_return_rate)
  let readiness_score2 := min 100 (max 0 readiness_score)
  { readiness_score := readiness_score2
  , current_savings_rate := savings_rate
  , monthly_savings := monthly_savings
  , projected_retirement_income := calcResult.monthly_retirement_income
  , current_monthly_expenses := monthly_expenses
  , calculation := calcResult }

/-- Index (relative to the loop start) of the calendar year that equals the
retirement-start year. -/
def Kof (c : Ctx) : Int := c.rsd.year - c.base_year

/-- A well-formed wall-clock date: month and day in range, and the date lies
within 365 days at or after January 1 of its own year (true of every real
calendar date). -/
def validToday (t : PyDate) : Prop :=
  1 ≤ t.month ∧ t.month ≤ 12 ∧ 1 ≤ t.day ∧ t.day ≤ 31 ∧
  (PyDate.mk t.year 1 1).toDays ≤ t.toDays ∧
  t.toDays ≤ (PyDate.mk t.year 1 1).toDays + 365

instance (t : PyDate) : Decidable (validToday t) := by
  unfold validToday
  infer_instance

/-- The spec §8 scenario profile, with the taxable percentage left as a
parameter (the scenario's unlisted pension fields follow the repository's
`debug_tax_output.py` sample: a 3000 monthly government pension). -/
def scenarioProfilePct (pct : ℚ) : Profile :=
  { base_age := 40
  , start_date := StartDate.absent
  , total_assets := 100000
  , fixed_assets := 20000
  , monthly_salary_net := 5000
  , government_retirement_income := 3000
  , monthly_return_rate := 5/1000
  , fixed_assets_growth_rate := 4/100
  , investment_tax_rate := 15/100
  , investment_taxable_percentage := pct
  , end_of_salary_years := 25
  , government_retirement_start_years := 20
  , government_retirement_adjustment := 2/100
  , monthly_expense_recurring := 2000
  , rent := 500
  , one_time_annual_expense := 1200
  , annual_inflation := 3/100 }

/-- The §8 scenario profile with the default taxable percentage 1. -/
def scenarioProfile : Profile := scenarioProfilePct 1

/-- The profile used to separate the implemented score from the claimed
formula: a salary far below expenses makes the savings rate negative. -/
def negSavingsProfile : Profile :=
  { base_age := 100
  , start_date := StartDate.absent
  , total_assets := 60000
  , fixed_assets := 0
  , monthly_salary_net := 1000
  , government_retirement_income := 0
  , monthly_return_rate := 0
  , fixed_assets_growth_rate := 4/100
  , investment_tax_rate := 0
  , investment_taxable_percentage := 1
  , end_of_salary_years := 1
  , government_retirement_start_years := 0
  , government_retirement_adjustment := 0
  , monthly_expense_recurring := 10000
  , rent := 0
  , one_time_annual_expense := 0
  , annual_inflation := 0 }

/-- A profile whose explicit start date lies far in the future while its
balance cannot survive even the first simulated year. -/
def futureStartProfile : Profile :=
  { base_age := 40
  , start_date := StartDate.parsed ⟨2046, 1, 1⟩
  , total_assets := 1000
  , fixed_assets := 0
  , monthly_salary_net := 0
  , government_retirement_income := 0
  , monthly_return_rate := 5/1000
  , fixed_assets_growth_rate := 4/100
  , investment_tax_rate := 15/100
  , investment_taxable_percentage := 1
  , end_of_salary_years := 0
  , government_retirement_start_years := 20
  , government_retirement_adjustment := 2/100
  , monthly_expense_recurring := 100000
  , rent := 0
  , one_time_annual_expense := 0
  , annual_inflation := 0 }

/-- Whether a date lies strictly after January 1 (of any year). -/
def afterJan1 (t : PyDate) : Bool :=
  PyDate.ltB ⟨0, 1, 1⟩ ⟨0, t.month, t.day⟩

/-- Corresponding loop states of two same-profile runs: all monetary state
equal, and timelines equal up to the period-label dates. -/
def StateRel (s₁ s₂ : LoopState) : Prop :=
  s₁.current_value = s₂.current_value ∧
  s₁.pending_tax = s₂.pending_tax ∧
  s₁.projected = s₂.projected ∧
  s₁.snapshot = s₂.snapshot ∧
  s₁.timeline.map TimelineRow.data = s₂.timeline.map TimelineRow.data

/-- Contexts of two runs that simulate each other: same profile, growth and
target, a base year equal to the retirement-start year, and identical
month-level salary and pension comparisons at every year index. -/
def CtxSim (c₁ c₂ : Ctx) : Prop :=
  c₁.p = c₂.p ∧
  c₁.growth = c₂.growth ∧
  c₁.targetAge = c₂.targetAge ∧
  c₁.base_year = c₁.rsd.year ∧
  c₂.base_year = c₂.rsd.year ∧
  (∀ y : ℕ, PyDate.ltB ⟨c₁.base_year + (y : Int), c₁.rsd.month, 1⟩ c₁.eos_date =
            PyDate.ltB ⟨c₂.base_year + (y : Int), c₂.rsd.month, 1⟩ c₂.eos_date) ∧
  (∀ (y m : ℕ),
    PyDate.leB c₁.gov_date
        (add_months_to_date ⟨c₁.base_year + (y : Int), c₁.rsd.month, 1⟩ (m : Int)) =
    PyDate.leB c₂.gov_date
        (add_months_to_date ⟨c₂.base_year + (y : Int), c₂.rsd.month, 1⟩ (m : Int)))

/-! ### Structural lemmas about the year loop -/

theorem yearBody_fst_timeline (c : Ctx) (y : ℕ) (s : LoopState) :
    (yearBody c y s).1.timeline =
      s.timeline ++
        (if c.rsd.year ≤ c.base_year + (y : Int) then [rowOf c y s] else []) := rfl

theorem yearBody_fst_snapshot (c : Ctx) (y : ℕ) (s : LoopState) :
    (yearBody c y s).1.snapshot =
      (if c.base_year + (y : Int) = c.rsd.year ∧ s.snapshot = none
       then some s.current_value else s.snapshot) := rfl

theorem yearBody_fst_current (c : Ctx) (y : ℕ) (s : LoopState) :
    (yearBody c y s).1.current_value = finalValueOf c y s := rfl

theorem yearBody_snd (c : Ctx) (y : ℕ) (s : LoopState) :
    (yearBody c y s).2 = finalValueOf c y s := rfl

theorem rowOf_year (c : Ctx) (y : ℕ) (s : LoopState) :
    (rowOf c y s).year = (c.base_year + (y : Int)) - c.rsd.year + 1 := rfl

theorem rowOf_age (c : Ctx) (y : ℕ) (s : LoopState) :
    (rowOf c y s).age = c.p.base_age + (y : Int) := rfl

theorem rowOf_taxes (c : Ctx) (y : ℕ) (s : LoopState) :
    (rowOf c y s).taxes_over_investments = round2 s.pending_tax := rfl

theorem rowOf_final (c : Ctx) (y : ℕ) (s : LoopState) :
    (rowOf c y s).final_value = round2 (finalValueOf c y s) := rfl

theorem calc_timeline_def (p : Profile) (today : PyDate) (er : ℚ) (ta : Int) :
    (calculate_retirement p today er ta).timeline =
      (runLoop (mkCtx p today er ta) 200 0 (initState p)).timeline := rfl

theorem calc_fund_def (p : Profile) (today : PyDate) (er : ℚ) (ta : Int) :
    (calculate_retirement p today er ta).total_retirement_fund =
      (runLoop (mkCtx p today er ta) 200 0 (initState p)).snapshot.getD
        (runLoop (mkCtx p today er ta) 200 0 (initState p)).current_value := rfl

/-- Nonnegative rationals round to nonnegative two-decimal values. -/
theorem round2_nonneg (q : ℚ) (h : 0 ≤ q) : 0 ≤ round2 q := by
  have hq : (0 : ℚ) ≤ q * 100 := by positivity
  have hfl : Rat.floor (q * 100) = ⌊q * 100⌋ := rfl
  have hf : 0 ≤ ⌊q * 100⌋ := Int.floor_nonneg.mpr hq
  have hr : 0 ≤ roundHalfEven (q * 100) := by
    simp only [roundHalfEven, hfl]
    split
    · exact hf
    · split
      · omega
      · split <;> omega
  unfold round2
  have : (0 : ℚ) ≤ (roundHalfEven (q * 100) : ℚ) := by exact_mod_cast hr
  positivity

/-- The loop only ever appends to the timeline. -/
theorem runLoop_timeline_extend (c : Ctx) :
    ∀ (fuel y : ℕ) (s : LoopState), ∃ t, (runLoop c fuel y s).timeline = s.timeline ++ t := by
  intro fuel
  induction fuel with
  | zero => intro y s; exact ⟨[], by simp [runLoop]⟩
  | succ fuel ih =>
    intro y s
    by_cases h : c.targetAge < c.p.base_age + (y : Int)
    · exact ⟨[], by simp [runLoop, h]⟩
    · by_cases hfv : (yearBody c y s).2 < 0
      · refine ⟨if c.rsd.year ≤ c.base_year + (y : Int) then [rowOf c y s] else [], ?_⟩
        simp [runLoop, h, hfv, yearBody_fst_timeline]
      · obtain ⟨t, ht⟩ := ih (y + 1) (yearBody c y s).1
        refine ⟨(if c.rsd.year ≤ c.base_year + (y : Int) then [rowOf c y s] else []) ++ t, ?_⟩
        simp [runLoop, h, hfv, ht, yearBody_fst_timeline]

/-- Claim C3 invariant: while the loop keeps running, every accumulated row
has a nonnegative final value, and after it stops only the very last row
may be negative. -/
theorem runLoop_dropLast_nonneg (c : Ctx) :
    ∀ (fuel y : ℕ) (s : LoopState), (∀ r ∈ s.timeline, 0 ≤ r.final_value) →
      ∀ r ∈ (runLoop c fuel y s).timeline.dropLast, 0 ≤ r.final_value := by
  intro fuel
  induction fuel with
  | zero =>
    intro y s hs r hr
    exact hs r (List.dropLast_subset _ (by simpa [runLoop] using hr))
  | succ fuel ih =>
    intro y s hs r hr
    by_cases h : c.targetAge < c.p.base_age + (y : Int)
    · exact hs r (List.dropLast_subset _ (by simpa [runLoop, h] using hr))
    · by_cases hfv : (yearBody c y s).2 < 0
      · rw [show runLoop c (fuel + 1) y s = (yearBody c y s).1 by
            simp [runLoop, h, hfv]] at hr
        rw [yearBody_fst_timeline] at hr
        by_cases hem : c.rsd.year ≤ c.base_year + (y : Int)
        · rw [if_pos hem, List.dropLast_concat] at hr
          exact hs r hr
        · rw [if_neg hem, List.append_nil] at hr
          exact hs r (List.dropLast_subset _ hr)
      · rw [show runLoop c (fuel + 1) y s = runLoop c fuel (y + 1) (yearBody c y s).1 by
            simp [runLoop, h, hfv]] at hr
        refine ih (y + 1) (yearBody c y s).1 ?_ r hr
        intro r' hr'
        rw [yearBody_fst_timeline] at hr'
        rcases List.mem_append.mp hr' with hmem | hmem
        · exact hs r' hmem
        · by_cases hem : c.rsd.year ≤ c.base_year + (y : Int)
          · rw [if_pos hem, List.mem_singleton] at hmem
            subst hmem
            rw [rowOf_final]
            exact round2_nonneg _ (by rw [← yearBody_snd]; exact not_lt.mp hfv)
          · simp [if_neg hem] at hmem

/-- Claim C3: in every computed timeline, every row except possibly the
last has a nonnegative (rounded) final value — equivalently, a row with
`final_value < 0` can only be the last row.  The timeline is the one
returned by `calculate_retirement`. -/
theorem depletion_row_is_last (p : Profile) (today : PyDate) (er : ℚ) (ta : Int) :
    ((calculate_retirement p today er ta).timeline.dropLast).Forall
      (fun r => 0 ≤ r.final_value) := by
  rw [List.forall_iff_forall_mem, calc_timeline_def]
  exact runLoop_dropLast_nonneg (mkCtx p today er ta) 200 0 (initState p)
    (by intro r hr; simp [initState] at hr)

/-! ### Claim C4: strictly increasing year and age -/

/-- Loop invariant for C4: rows already emitted are pairwise increasing and
all lie strictly below the values the current iteration would emit. -/
theorem runLoop_pairwise (c : Ctx) :
    ∀ (fuel y : ℕ) (s : LoopState),
      s.timeline.Pairwise (fun a b => a.year < b.year ∧ a.age < b.age) →
      (∀ r ∈ s.timeline,
        r.year < (c.base_year + (y : Int)) - c.rsd.year + 1 ∧
        r.age < c.p.base_age + (y : Int)) →
      (runLoop c fuel y s).timeline.Pairwise
        (fun a b => a.year < b.year ∧ a.age < b.age) := by
  intro fuel
  induction fuel with
  | zero => intro y s hpair _; simpa [runLoop] using hpair
  | succ fuel ih =>
    intro y s hpair hbound
    by_cases h : c.targetAge < c.p.base_age + (y : Int)
    · simpa [runLoop, h] using hpair
    · have hpair' : (yearBody c y s).1.timeline.Pairwise
          (fun a b => a.year < b.year ∧ a.age < b.age) := by
        rw [yearBody_fst_timeline]
        by_cases hem : c.rsd.year ≤ c.base_year + (y : Int)
        · rw [if_pos hem]
          refine List.pairwise_append.mpr ⟨hpair, by simp, ?_⟩
          intro a ha b hb
          rw [List.mem_singleton] at hb
          subst hb
          rw [rowOf_year, rowOf_age]
          exact hbound a ha
        · simpa [if_neg hem] using hpair
      have hbound' : ∀ r ∈ (yearBody c y s).1.timeline,
          r.year < (c.base_year + ((y + 1 : ℕ) : Int)) - c.rsd.year + 1 ∧
          r.age < c.p.base_age + ((y + 1 : ℕ) : Int) := by
        intro r hr
        rw [yearBody_fst_timeline] at hr
        rcases List.mem_append.mp hr with hmem | hmem
        · have := hbound r hmem
          push_cast
          push_cast at this
          constructor <;> linarith [this.1, this.2]
        · by_cases hem : c.rsd.year ≤ c.base_year + (y : Int)
          · rw [if_pos hem, List.mem_singleton] at hmem
            subst hmem
            rw [rowOf_year, rowOf_age]
            push_cast
            constructor <;> linarith
          · simp [if_neg hem] at hmem
      by_cases hfv : (yearBody c y s).2 < 0
      · rw [show runLoop c (fuel + 1) y s = (yearBody c y s).1 by
            simp [runLoop, h, hfv]]
        exact hpair'
      · rw [show runLoop c (fuel + 1) y s = runLoop c fuel (y + 1) (yearBody c y s).1 by
            simp [runLoop, h, hfv]]
        exact ih (y + 1) (yearBody c y s).1 hpair' hbound'

/-- Claim C4: in every timeline returned by `calculate_retirement`, both the
`year` and the `age` field strictly increase between any two rows (in
particular no two rows share a simulated year). -/
theorem timeline_strictly_increasing (p : Profile) (today : PyDate)
    (er : ℚ) (ta : Int) :
    (calculate_retirement p today er ta).timeline.Pairwise
      (fun a b => a.year < b.year ∧ a.age < b.age) := by
  rw [calc_timeline_def]
  refine runLoop_pairwise (mkCtx p today er ta) 200 0 (initState p) ?_ ?_
  · simp [initState]
  · intro r hr; simp [initState] at hr

/-! ### Claim C9: bounded iteration and ages -/

theorem runLoop_length_le (c : Ctx) :
    ∀ (fuel y : ℕ) (s : LoopState), (runLoop c fuel y s).timeline.length ≤ s.timeline.length + fuel := by
  intro fuel
  induction fuel with
  | zero => intro y s; simp [runLoop]
  | succ fuel ih =>
    intro y s
    by_cases h : c.targetAge < c.p.base_age + (y : Int)
    · simp [runLoop, h]
    · by_cases hfv : (yearBody c y s).2 < 0
      · rw [show runLoop c (fuel + 1) y s = (yearBody c y s).1 by simp [runLoop, h, hfv]]
        rw [yearBody_fst_timeline]
        by_cases hem : c.rsd.year ≤ c.base_year + (y : Int) <;>
          simp [hem] <;> omega
      · rw [show runLoop c (fuel + 1) y s = runLoop c fuel (y + 1) (yearBody c y s).1 by
            simp [runLoop, h, hfv]]
        refine le_trans (ih (y + 1) (yearBody c y s).1) ?_
        rw [yearBody_fst_timeline]
        by_cases hem : c.rsd.year ≤ c.base_year + (y : Int) <;>
          simp [hem] <;> omega

theorem runLoop_ages (c : Ctx) :
    ∀ (fuel y : ℕ) (s : LoopState), ∀ r ∈ (runLoop c fuel y s).timeline,
      r ∈ s.timeline ∨ r.age ≤ c.targetAge := by
  intro fuel
  induction fuel with
  | zero => intro y s r hr; exact Or.inl (by simpa [runLoop] using hr)
  | succ fuel ih =>
    intro y s r hr
    by_cases h : c.targetAge < c.p.base_age + (y : Int)
    · exact Or.inl (by simpa [runLoop, h] using hr)
    · have hsplit : ∀ r' ∈ (yearBody c y s).1.timeline,
          r' ∈ s.timeline ∨ r'.age ≤ c.targetAge := by
        intro r' hr'
        rw [yearBody_fst_timeline] at hr'
        rcases List.mem_append.mp hr' with hmem | hmem
        · exact Or.inl hmem
        · by_cases hem : c.rsd.year ≤ c.base_year + (y : Int)
          · rw [if_pos hem, List.mem_singleton] at hmem
            subst hmem
            rw [rowOf_age]
            exact Or.inr (not_lt.mp h)
          · simp [if_neg hem] at hmem
      by_cases hfv : (yearBody c y s).2 < 0
      · rw [show runLoop c (fuel + 1) y s = (yearBody c y s).1 by
            simp [runLoop, h, hfv]] at hr
        exact hsplit r hr
      · rw [show runLoop c (fuel + 1) y s = runLoop c fuel (y + 1) (yearBody c y s).1 by
            simp [runLoop, h, hfv]] at hr
        rcases ih (y + 1) (yearBody c y s).1 r hr with hmem | hage
        · exact hsplit r hmem
        · exact Or.inr hage

theorem runCount_le (c : Ctx) :
    ∀ (fuel y : ℕ) (s : LoopState), runCount c fuel y s ≤ fuel := by
  intro fuel
  induction fuel with
  | zero => intro y s; simp [runCount]
  | succ fuel ih =>
    intro y s
    by_cases h : c.targetAge < c.p.base_age + (y : Int)
    · simp [runCount, h]
    · by_cases hfv : (yearBody c y s).2 < 0
      · simp [runCount, h, hfv]
      · rw [show runCount c (fuel + 1) y s = runCount c fuel (y + 1) (yearBody c y s).1 + 1 by
            simp [runCount, h, hfv]]
        exact Nat.succ_le_succ (ih (y + 1) (yearBody c y s).1)

/-- Every loop index that the body actually processes respects the target
age: the loop stops before a year whose age exceeds it. -/
theorem runCount_ages (c : Ctx) :
    ∀ (fuel y : ℕ) (s : LoopState), ∀ j < runCount c fuel y s,
      c.p.base_age + ((y + j : ℕ) : Int) ≤ c.targetAge := by
  intro fuel
  induction fuel with
  | zero => intro y s j hj; simp [runCount] at hj
  | succ fuel ih =>
    intro y s j hj
    by_cases h : c.targetAge < c.p.base_age + (y : Int)
    · simp [runCount, h] at hj
    · by_cases hfv : (yearBody c y s).2 < 0
      · rw [show runCount c (fuel + 1) y s = 1 by simp [runCount, h, hfv]] at hj
        have : j = 0 := by omega
        subst this
        simpa using not_lt.mp h
      · rw [show runCount c (fuel + 1) y s = runCount c fuel (y + 1) (yearBody c y s).1 + 1 by
            simp [runCount, h, hfv]] at hj
        cases j with
        | zero => simpa using not_lt.mp h
        | succ j =>
          have := ih (y + 1) (yearBody c y s).1 j (by omega)
          have harith : ((y + (j + 1) : ℕ) : Int) = ((y + 1 + j : ℕ) : Int) := by
            push_cast; ring
          rw [harith]
          exact this

/-- Claim C9: the year loop of `calculate_retirement` performs at most 200
iterations, the returned timeline has at most 200 rows, no emitted row has
an age above the target age, and no processed year index corresponds to an
age above the target age. -/
theorem simulation_bounded (p : Profile) (today : PyDate) (er : ℚ) (ta : Int) :
    runCount (mkCtx p today er ta) 200 0 (initState p) ≤ 200 ∧
    (calculate_retirement p today er ta).timeline.length ≤ 200 ∧
    (calculate_retirement p today er ta).timeline.Forall (fun r => r.age ≤ ta) ∧
    (List.range (runCount (mkCtx p today er ta) 200 0 (initState p))).Forall
      (fun (j : ℕ) => p.base_age + (j : Int) ≤ ta) := by
  refine ⟨runCount_le _ 200 0 _, ?_, ?_, ?_⟩
  · have := runLoop_length_le (mkCtx p today er ta) 200 0 (initState p)
    rw [calc_timeline_def]
    simpa [initState] using this
  · rw [List.forall_iff_forall_mem, calc_timeline_def]
    intro r hr
    rcases runLoop_ages (mkCtx p today er ta) 200 0 (initState p) r hr with hmem | hage
    · simp [initState] at hmem
    · exact hage
  · rw [List.forall_iff_forall_mem]
    intro j hj
    rw [List.mem_range] at hj
    have := runCount_ages (mkCtx p today er ta) 200 0 (initState p) j hj
    simpa using this

/-! ### Claim C1: the retirement-start snapshot -/

/-- The loop is the `runCount`-fold pure iteration of the year body. -/
theorem runLoop_eq_iterFrom (c : Ctx) :
    ∀ (fuel y : ℕ) (s : LoopState),
      runLoop c fuel y s = iterFrom c y s (runCount c fuel y s) := by
  intro fuel
  induction fuel with
  | zero => intro y s; simp [runLoop, runCount, iterFrom]
  | succ fuel ih =>
    intro y s
    by_cases h : c.targetAge < c.p.base_age + (y : Int)
    · simp [runLoop, runCount, h, iterFrom]
    · by_cases hfv : (yearBody c y s).2 < 0
      · simp [runLoop, runCount, h, hfv, iterFrom]
      · rw [show runLoop c (fuel + 1) y s = runLoop c fuel (y + 1) (yearBody c y s).1 by
            simp [runLoop, h, hfv]]
        rw [show runCount c (fuel + 1) y s = runCount c fuel (y + 1) (yearBody c y s).1 + 1 by
            simp [runCount, h, hfv]]
        rw [ih (y + 1) (yearBody c y s).1]
        rfl

/-- Once set, the snapshot survives any further iteration. -/
theorem iterFrom_snapshot_some (c : Ctx) :
    ∀ (n y : ℕ) (s : LoopState) (v : ℚ), s.snapshot = some v →
      (iterFrom c y s n).snapshot = some v := by
  intro n
  induction n with
  | zero => intro y s v hv; simpa [iterFrom] using hv
  | succ n ih =>
    intro y s v hv
    rw [show iterFrom c y s (n + 1) = iterFrom c (y + 1) (yearBody c y s).1 n from rfl]
    refine ih (y + 1) (yearBody c y s).1 v ?_
    rw [yearBody_fst_snapshot, hv]
    simp

/-- Snapshot characterization: starting with no snapshot at index `y`, after
`n` iterations the snapshot is exactly the entry balance of the iteration
whose calendar year equals the retirement-start year, provided that
iteration was among the `n` executed, and is unset otherwise. -/
theorem iterFrom_snapshot_none (c : Ctx) :
    ∀ (n y : ℕ) (s : LoopState), s.snapshot = none →
      (iterFrom c y s n).snapshot =
        (if (y : Int) ≤ Kof c ∧ Kof c < (y : Int) + (n : Int)
         then some ((iterFrom c y s ((Kof c - (y : Int)).toNat)).current_value)
         else none) := by
  intro n
  induction n with
  | zero =>
    intro y s hs
    rw [if_neg (by push_cast; omega)]
    simpa [iterFrom] using hs
  | succ n ih =>
    intro y s hs
    by_cases hy : c.base_year + (y : Int) = c.rsd.year
    · have hk : Kof c = (y : Int) := by unfold Kof; omega
      have hset : (yearBody c y s).1.snapshot = some s.current_value := by
        rw [yearBody_fst_snapshot, if_pos ⟨hy, hs⟩]
      rw [show iterFrom c y s (n + 1) = iterFrom c (y + 1) (yearBody c y s).1 n from rfl]
      rw [iterFrom_snapshot_some c n (y + 1) _ _ hset]
      rw [if_pos (by push_cast; omega)]
      have : (Kof c - (y : Int)).toNat = 0 := by omega
      rw [this]
      rfl
    · have hk : Kof c ≠ (y : Int) := by unfold Kof; omega
      have hkeep : (yearBody c y s).1.snapshot = none := by
        rw [yearBody_fst_snapshot, if_neg (by tauto), hs]
      rw [show iterFrom c y s (n + 1) = iterFrom c (y + 1) (yearBody c y s).1 n from rfl]
      rw [ih (y + 1) (yearBody c y s).1 hkeep]
      by_cases hc : (y : Int) ≤ Kof c ∧ Kof c < (y : Int) + ((n + 1 : ℕ) : Int)
      · rw [if_pos (by push_cast; push_cast at hc; omega), if_pos hc]
        have hlt : (y : Int) < Kof c := by omega
        have htn : (Kof c - (y : Int)).toNat = (Kof c - ((y : Int) + 1)).toNat + 1 := by omega
        rw [htn]
        rfl
      · rw [if_neg (by push_cast; push_cast at hc; omega), if_neg hc]

/-- Claim C1: `total_retirement_fund` is the running balance at the start of
the simulated year whose calendar year equals the retirement-start year
(before that year's growth, contributions and tax deduction) whenever the
loop reaches that year, and otherwise the final running balance when the
loop stops.  `iterFrom … k` is the pure `k`-fold iteration of the year
body from the initial state, and `runCount` is the number of loop-body
executions. -/
theorem total_retirement_fund_snapshot (p : Profile) (today : PyDate)
    (er : ℚ) (ta : Int) :
    (calculate_retirement p today er ta).total_retirement_fund =
      (if 0 ≤ Kof (mkCtx p today er ta) ∧
          Kof (mkCtx p today er ta) <
            ((runCount (mkCtx p today er ta) 200 0 (initState p) : ℕ) : Int)
       then (iterFrom (mkCtx p today er ta) 0 (initState p)
              ((Kof (mkCtx p today er ta)).toNat)).current_value
       else (iterFrom (mkCtx p today er ta) 0 (initState p)
              (runCount (mkCtx p today er ta) 200 0 (initState p))).current_value) := by
  rw [calc_fund_def, runLoop_eq_iterFrom]
  rw [iterFrom_snapshot_none (mkCtx p today er ta) _ 0 (initState p) rfl]
  by_cases hc : 0 ≤ Kof (mkCtx p today er ta) ∧
      Kof (mkCtx p today er ta) <
        ((runCount (mkCtx p today er ta) 200 0 (initState p) : ℕ) : Int)
  · rw [if_pos (by push_cast; push_cast at hc; omega), if_pos hc]
    simp
  · rw [if_neg (by push_cast; push_cast at hc; omega), if_neg hc]
    simp

/-! ### Claim C5: precedence of the years-to-retirement resolution -/

/-- Claim C5: `years_to_retirement` uses the parsed `start_date` year when
present and valid (`max 0 (year - current year)`); otherwise — including a
present but unparseable `start_date` — it falls through to a positive
`government_retirement_start_years`, and otherwise to 0. -/
theorem years_to_retirement_precedence (p : Profile) (Y : Int) (d : PyDate) :
    years_to_retirement { p with start_date := StartDate.parsed d } Y =
        max 0 (d.year - Y) ∧
    years_to_retirement { p with start_date := StartDate.absent } Y =
        (if 0 < p.government_retirement_start_years
         then p.government_retirement_start_years else 0) ∧
    years_to_retirement { p with start_date := StartDate.malformed } Y =
        (if 0 < p.government_retirement_start_years
         then p.government_retirement_start_years else 0) :=
  ⟨rfl, rfl, rfl⟩

/-! ### Valid wall-clock dates and the base-year anchor -/

theorem pyTrunc_eq_zero (q : ℚ) (h1 : -1 < q) (h2 : q ≤ 0) : pyTrunc q = 0 := by
  have hfl : ∀ r : ℚ, Rat.floor r = ⌊r⌋ := fun _ => rfl
  unfold pyTrunc
  split
  · next hq =>
    have hz : ⌊-q⌋ = 0 :=
      Int.floor_eq_zero_iff.mpr (Set.mem_Ico.mpr ⟨by linarith, by linarith⟩)
    rw [hfl, hz]
    rfl
  · next hq =>
    have hq0 : q = 0 := le_antisymm h2 (not_lt.mp hq)
    subst hq0
    rw [hfl]
    exact Int.floor_zero

theorem round2_zero : round2 0 = 0 := by decide

/-- Unfolded form of the base-year computation of `mkCtx`. -/
theorem mkCtx_base_year (p : Profile) (t : PyDate) (er : ℚ) (ta : Int) :
    (mkCtx p t er ta).base_year =
      (if 1/2 < |((((timelineStartDate p t).toDays - t.toDays : Int) : ℚ) / (1461/4)) -
                 ((years_to_retirement p t.year : Int) : ℚ)|
       then (timelineStartDate p t).year -
            pyTrunc ((((timelineStartDate p t).toDays - t.toDays : Int) : ℚ) / (1461/4))
       else (timelineStartDate p t).year - years_to_retirement p t.year) := rfl

/-- With no explicit start date and a well-formed current date, the loop's
base year is the current calendar year. -/
theorem mkCtx_base_year_absent (p : Profile) (hp : p.start_date = StartDate.absent)
    (t : PyDate) (ht : validToday t) (er : ℚ) (ta : Int) :
    (mkCtx p t er ta).base_year = t.year := by
  obtain ⟨-, -, -, -, h5, h6⟩ := ht
  have htsd : timelineStartDate p t = ⟨t.year, 1, 1⟩ := by
    simp [timelineStartDate, hp]
  have hytr : years_to_retirement p t.year =
      (if 0 < p.government_retirement_start_years
       then p.government_retirement_start_years else 0) := by
    unfold years_to_retirement
    rw [hp]
  rw [mkCtx_base_year, htsd, hytr]
  set D : Int := (PyDate.mk t.year 1 1).toDays - t.toDays with hD
  have hD1 : -365 ≤ D := by omega
  have hD2 : D ≤ 0 := by omega
  set a : ℚ := ((D : Int) : ℚ) / (1461/4) with ha
  have hq : (0 : ℚ) < 1461/4 := by norm_num
  have ha2 : a ≤ 0 := by
    rw [ha]
    exact div_nonpos_of_nonpos_of_nonneg (by exact_mod_cast hD2) (le_of_lt hq)
  have ha1 : -1 < a := by
    have hcast : (-365 : ℚ) ≤ ((D : Int) : ℚ) := by exact_mod_cast hD1
    have hstep : (-365 : ℚ) / (1461/4) ≤ a := by
      rw [ha]
      exact (div_le_div_iff_of_pos_right hq).mpr hcast
    have : (-1 : ℚ) < (-365 : ℚ) / (1461/4) := by norm_num
    linarith
  have htr : pyTrunc a = 0 := pyTrunc_eq_zero a ha1 ha2
  by_cases hg : 0 < p.government_retirement_start_years
  · rw [if_pos hg]
    have hg1 : (1 : ℚ) ≤ ((p.government_retirement_start_years : Int) : ℚ) := by
      exact_mod_cast hg
    have hcond : 1/2 < |a - ((p.government_retirement_start_years : Int) : ℚ)| := by
      rw [abs_of_nonpos (by linarith)]
      linarith
    rw [if_pos hcond, htr]
    simp
  · rw [if_neg hg]
    by_cases hcond : 1/2 < |a - (((0 : Int) : ℚ))|
    · rw [if_pos hcond, htr]
      simp
    · rw [if_neg hcond]
      simp

/-- When year 0 is emitted, the head of the final timeline is year 0's row. -/
theorem runLoop_head_emit (c : Ctx) (fuel y : ℕ) (s : LoopState)
    (hage : ¬ c.targetAge < c.p.base_age + (y : Int))
    (hem : c.rsd.year ≤ c.base_year + (y : Int)) (htl : s.timeline = []) :
    (runLoop c (fuel + 1) y s).timeline.head? = some (rowOf c y s) := by
  rw [show runLoop c (fuel + 1) y s =
      (if (yearBody c y s).2 < 0 then (yearBody c y s).1
       else runLoop c fuel (y + 1) (yearBody c y s).1) by
    simp [runLoop, hage]]
  by_cases hfv : (yearBody c y s).2 < 0
  · rw [if_pos hfv, yearBody_fst_timeline, htl, if_pos hem]
    rfl
  · rw [if_neg hfv]
    obtain ⟨tail, htail⟩ := runLoop_timeline_extend c fuel (y + 1) (yearBody c y s).1
    rw [htail, yearBody_fst_timeline, htl, if_pos hem]
    simp

/-- For a profile with no explicit start date, the timeline starts at the
current year: its first row is the year-0 row, showing retirement-relative
year 1, the profile's base age, and zero taxes. -/
theorem first_row_absent (p : Profile) (hp : p.start_date = StartDate.absent)
    (t : PyDate) (ht : validToday t) (er : ℚ) (ta : Int)
    (hage : p.base_age ≤ ta) :
    ((calculate_retirement p t er ta).timeline.head?).map
      (fun r => (r.year, r.age, r.taxes_over_investments)) =
      some (1, p.base_age, 0) := by
  have hb := mkCtx_base_year_absent p hp t ht er ta
  have hrsd : (mkCtx p t er ta).rsd = ⟨t.year, 1, 1⟩ := by
    simp [mkCtx, timelineStartDate, hp]
  have h1 : ¬ (mkCtx p t er ta).targetAge <
      (mkCtx p t er ta).p.base_age + ((0 : ℕ) : Int) := by
    show ¬ ta < p.base_age + ((0 : ℕ) : Int)
    simpa using hage
  have h2 : (mkCtx p t er ta).rsd.year ≤
      (mkCtx p t er ta).base_year + ((0 : ℕ) : Int) := by
    rw [hrsd, hb]
    simp
  rw [calc_timeline_def, show (200 : ℕ) = 199 + 1 from rfl,
      runLoop_head_emit (mkCtx p t er ta) 199 0 (initState p) h1 h2 rfl]
  rw [Option.map_some']
  rw [show (rowOf (mkCtx p t er ta) 0 (initState p)).year =
        ((mkCtx p t er ta).base_year + ((0 : ℕ) : Int)) -
          (mkCtx p t er ta).rsd.year + 1 from rfl]
  rw [show (rowOf (mkCtx p t er ta) 0 (initState p)).age =
        (mkCtx p t er ta).p.base_age + ((0 : ℕ) : Int) from rfl]
  rw [show (rowOf (mkCtx p t er ta) 0 (initState p)).taxes_over_investments =
        round2 (initState p).pending_tax from rfl]
  rw [hb, hrsd]
  show some ((t.year + ((0:ℕ):Int)) - t.year + 1, p.base_age + ((0:ℕ):Int), round2 0) = _
  rw [round2_zero]
  norm_num

/-! ### The §8 scenario profile -/

/-- Claim C2 (amended): for the §8 scenario profile and any well-formed
current date, the first timeline row has year 1 and taxes 0.00 as claimed,
but its age is the base age 40 — with no explicit start date the timeline
starts at the current year, not at the government retirement start. -/
theorem scenario_first_row (t : PyDate) (ht : validToday t) :
    ((calculate_retirement scenarioProfile t (7/100) 100).timeline.head?).map
      (fun r => (r.year, r.age, r.taxes_over_investments)) =
      some (1, 40, 0) :=
  first_row_absent scenarioProfile rfl t ht (7/100) 100 (by norm_num [scenarioProfile, scenarioProfilePct])

/-- Witness for C2 (amended): the concrete date 2026-10-12 satisfies the
hypotheses and exhibits the first-row fields. -/
theorem scenario_first_row_witness :
    validToday ⟨2026, 10, 12⟩ ∧
    ((calculate_retirement scenarioProfile ⟨2026, 10, 12⟩ (7/100) 100).timeline.head?).map
      (fun r => (r.year, r.age, r.taxes_over_investments)) =
      some (1, 40, 0) :=
  ⟨by decide, scenario_first_row ⟨2026, 10, 12⟩ (by decide)⟩

/-- Claim C2 counterexample: at the concrete current date 2026-10-12 the
first timeline row of the §8 scenario has age 40, not the claimed 60. -/
theorem scenario_first_row_age_ne_sixty :
    ((calculate_retirement scenarioProfile ⟨2026, 10, 12⟩ (7/100) 100).timeline.head?).map
      (fun r => r.age) = some 40 ∧ (40 : Int) ≠ 60 := by
  have h := first_row_absent scenarioProfile rfl ⟨2026, 10, 12⟩ (by decide) (7/100) 100
    (by norm_num [scenarioProfile, scenarioProfilePct])
  constructor
  · cases hh : (calculate_retirement scenarioProfile ⟨2026, 10, 12⟩ (7/100) 100).timeline.head? with
    | none => rw [hh] at h; simp at h
    | some r =>
      rw [hh] at h
      simp only [Option.map_some'] at h ⊢
      have : r.age = 40 := by
        have := congrArg (fun x => x.map (fun pr => pr.2.1)) h
        simpa using this
      rw [this]
  · decide

/-! ### Claim C6: the readiness-score formula -/

/-- Clamp algebra for the savings-rate term: the implementation's
`min 40 (max 0 (sr / 0.15 × 40))` is `40 × min 1 (max 0 sr / 0.15)`. -/
theorem savings_term_eq (sr : ℚ) :
    min 40 (max 0 ((sr / (15/100)) * 40)) = 40 * min 1 (max 0 sr / (15/100)) := by
  have hpos : (0 : ℚ) < 15/100 := by norm_num
  have hdiv : max 0 sr / (15/100) = max 0 (sr / (15/100)) := by
    rw [← max_div_div_right (le_of_lt hpos) 0 sr, zero_div]
  rw [hdiv]
  have hmax : max 0 ((sr / (15/100)) * 40) = (max 0 (sr / (15/100))) * 40 := by
    rcases le_total (sr / (15/100)) 0 with h | h
    · rw [max_eq_left h, max_eq_left (by nlinarith)]
      ring
    · rw [max_eq_right h, max_eq_right (by nlinarith)]
  rw [hmax]
  rcases le_total (max 0 (sr / (15/100))) 1 with h | h
  · rw [min_eq_right (by nlinarith), min_eq_right h]
    ring
  · rw [min_eq_left (by nlinarith), min_eq_left h]
    norm_num

/-- Claim C6 (amended): the readiness score equals the weighted rubric over
the derived quantities with the savings-rate term clamped below at zero —
`40 × min(1, max(0, savings_rate)/0.15) + 20 × emergency + 30 × coverage +
10 × leftover`, clamped to [0, 100] — and in particular it always lies
within [0, 100]. -/
theorem readiness_score_formula (p : Profile) (today : PyDate) (er : ℚ) :
    (calculate_retirement_readiness p today er).readiness_score =
      clamp0100 (40 * min 1 (max 0 (savingsRateOf p) / (15/100)) +
                 20 * emergencyFracOf p +
                 30 * coverageFracOf p today er +
                 10 * leftoverFracOf p today er) ∧
    0 ≤ (calculate_retirement_readiness p today er).readiness_score ∧
    (calculate_retirement_readiness p today er).readiness_score ≤ 100 := by
  have hscore : (calculate_retirement_readiness p today er).readiness_score =
      min 100 (max 0 (readinessTotal (savingsRateOf p) (emergencyFracOf p)
        (coverageFracOf p today er) (leftoverFracOf p today er))) := rfl
  have hemle : emergencyFracOf p ≤ 1 := min_le_left _ _
  have hbody : readinessTotal (savingsRateOf p) (emergencyFracOf p)
      (coverageFracOf p today er) (leftoverFracOf p today er) =
      40 * min 1 (max 0 (savingsRateOf p) / (15/100)) +
      20 * emergencyFracOf p +
      30 * coverageFracOf p today er +
      10 * leftoverFracOf p today er := by
    unfold readinessTotal
    rw [savings_term_eq]
    have h20 : min 20 (emergencyFracOf p * 20) = 20 * emergencyFracOf p := by
      rw [min_eq_right (by nlinarith)]
      ring
    rw [h20]
    ring
  refine ⟨?_, ?_, ?_⟩
  · rw [hscore, hbody]
    rfl
  · rw [hscore]
    exact le_min (by norm_num) (le_max_left _ _)
  · rw [hscore]
    exact min_le_left _ _

/-- Claim C6 counterexample: for a profile with a negative savings rate the
implemented score (20: full emergency-fund credit, everything else zero)
differs from the claimed formula `40 × min(1, savings_rate/0.15) + …`
(which clamps to 0), so the claimed equality fails as stated. -/
theorem readiness_formula_counterexample :
    (calculate_retirement_readiness negSavingsProfile ⟨2026, 1, 15⟩ (7/100)).readiness_score = 20 ∧
    readinessScoreClaim negSavingsProfile ⟨2026, 1, 15⟩ (7/100) = 0 ∧
    (calculate_retirement_readiness negSavingsProfile ⟨2026, 1, 15⟩ (7/100)).readiness_score ≠
      readinessScoreClaim negSavingsProfile ⟨2026, 1, 15⟩ (7/100) := by
  refine ⟨by decide, by decide, by decide⟩

/-! ### Claim C8: calculate_required_savings -/

/-- Claim C8 counterexample: at `years_to_retirement = 0` — allowed by the
claim's domain — the computation fails with a division by zero (modelled by
`none`), for a positive and for a zero expected return alike. -/
theorem required_savings_zero_years_fails :
    calculate_required_savings 1000 0 (7/100) (3/100) = none ∧
    calculate_required_savings 1000 0 0 (3/100) = none ∧
    (0 : ℚ) ≤ 1000 ∧ (0 : Int) ≤ 0 ∧ (0 : ℚ) ≤ 7/100 ∧ (0 : ℚ) ≤ 3/100 := by
  refine ⟨by decide, by decide, by norm_num, le_refl 0, by norm_num, by norm_num⟩

/-- Claim C8 (amended): for a nonnegative target income, at least one year
to retirement, and nonnegative rates, `calculate_required_savings` returns
a result; with a zero return rate the required monthly savings is the
linear division `required_fund / (years × 12)`, and with a positive return
rate it is the future-value-of-annuity back-solve.  (At zero years the
function instead fails with a division by zero.) -/
theorem required_savings_total (tmi : ℚ) (ytr : Int) (er infl : ℚ)
    (h1 : 0 ≤ tmi) (h2 : 1 ≤ ytr) (h3 : 0 ≤ er) (h4 : 0 ≤ infl) :
    ∃ r : RequiredSavings,
      calculate_required_savings tmi ytr er infl = some r ∧
      (er = 0 → r.required_monthly_savings =
        r.required_retirement_fund / ((ytr * 12 : Int) : ℚ)) ∧
      (0 < er → r.required_monthly_savings =
        r.required_retirement_fund /
          ((((1 + er/12) ^ (ytr * 12) - 1)) / (er/12))) := by
  rcases lt_or_eq_of_le h3 with her | her
  · -- positive expected return
    have hmr : (0 : ℚ) < er / 12 := by linarith
    have hnat : (ytr * 12) = (((ytr * 12).toNat : ℕ) : Int) :=
      (Int.toNat_of_nonneg (by omega)).symm
    have hpow : 1 < (1 + er/12) ^ (ytr * 12) := by
      rw [hnat, zpow_natCast]
      exact one_lt_pow₀ (by linarith) (by omega)
    have hden : ((1 + er/12) ^ (ytr * 12) - 1) / (er/12) ≠ 0 :=
      ne_of_gt (div_pos (by linarith) hmr)
    refine ⟨⟨tmi * 12 * (1 + infl) ^ ytr / (4/100) /
              (((1 + er/12) ^ (ytr * 12) - 1) / (er/12)),
            tmi * 12 * (1 + infl) ^ ytr / (4/100),
            tmi, tmi * 12 * (1 + infl) ^ ytr, ytr⟩, ?_, ?_, ?_⟩
    · simp only [calculate_required_savings]
      rw [if_pos her, if_neg hden]
    · intro h0; exact absurd h0 (ne_of_gt her)
    · intro _; rfl
  · -- zero expected return
    have hden : (((ytr * 12 : Int)) : ℚ) ≠ 0 :=
      Int.cast_ne_zero.mpr (by omega)
    refine ⟨⟨tmi * 12 * (1 + infl) ^ ytr / (4/100) / ((ytr * 12 : Int) : ℚ),
            tmi * 12 * (1 + infl) ^ ytr / (4/100),
            tmi, tmi * 12 * (1 + infl) ^ ytr, ytr⟩, ?_, ?_, ?_⟩
    · simp only [calculate_required_savings]
      rw [if_neg (by rw [← her]; exact lt_irrefl 0), if_neg hden]
    · intro _; rfl
    · intro h0; rw [← her] at h0; exact absurd h0 (lt_irrefl 0)
  
/-- Witness for C8 (amended): concrete inputs satisfying the hypotheses. -/
theorem required_savings_total_witness :
    (0 : ℚ) ≤ 1000 ∧ (1 : Int) ≤ 10 ∧ (0 : ℚ) ≤ 7/100 ∧ (0 : ℚ) ≤ 3/100 ∧
    (∃ r : RequiredSavings,
      calculate_required_savings 1000 10 (7/100) (3/100) = some r ∧
      ((7 : ℚ)/100 = 0 → r.required_monthly_savings =
        r.required_retirement_fund / (((10 : Int) * 12 : Int) : ℚ)) ∧
      (0 < (7 : ℚ)/100 → r.required_monthly_savings =
        r.required_retirement_fund /
          ((((1 + (7:ℚ)/100/12) ^ ((10 : Int) * 12) - 1)) / ((7:ℚ)/100/12)))) :=
  ⟨by norm_num, by norm_num, by norm_num, by norm_num,
   required_savings_total 1000 10 (7/100) (3/100) (by norm_num) (by norm_num)
     (by norm_num) (by norm_num)⟩

/-! ### Claim C10: depletion in a pre-retirement year stops the loop silently -/

/-- For C10: the executed loop steps, characterized through the pure
iteration; only the very last executed step may carry a negative final
value. -/
theorem runCount_no_step_after_negative (c : Ctx) :
    ∀ (j fuel y : ℕ) (s : LoopState), j + 1 < runCount c fuel y s →
      0 ≤ (yearBody c (y + j) (iterFrom c y s j)).2 := by
  intro j
  induction j with
  | zero =>
    intro fuel y s hj
    cases fuel with
    | zero => simp [runCount] at hj
    | succ fuel =>
      by_cases h : c.targetAge < c.p.base_age + (y : Int)
      · rw [show runCount c (fuel + 1) y s = 0 by simp [runCount, h]] at hj
        omega
      · by_cases hfv : (yearBody c y s).2 < 0
        · rw [show runCount c (fuel + 1) y s = 1 by simp [runCount, h, hfv]] at hj
          omega
        · simpa [iterFrom] using not_lt.mp hfv
  | succ j ih =>
    intro fuel y s hj
    cases fuel with
    | zero => simp [runCount] at hj
    | succ fuel =>
      by_cases h : c.targetAge < c.p.base_age + (y : Int)
      · rw [show runCount c (fuel + 1) y s = 0 by simp [runCount, h]] at hj
        omega
      · by_cases hfv : (yearBody c y s).2 < 0
        · rw [show runCount c (fuel + 1) y s = 1 by simp [runCount, h, hfv]] at hj
          omega
        · rw [show runCount c (fuel + 1) y s =
              runCount c fuel (y + 1) (yearBody c y s).1 + 1 by
            simp [runCount, h, hfv]] at hj
          have := ih fuel (y + 1) (yearBody c y s).1 (by omega)
          rw [show y + (j + 1) = (y + 1) + j by omega]
          rw [show iterFrom c y s (j + 1) =
              iterFrom c (y + 1) (yearBody c y s).1 j from rfl]
          exact this

/-- Claim C10: the loop never processes another year after one whose
post-tax final value went negative — only the last executed step may be
negative — and, concretely, with a future explicit start date the first
simulated year is pre-retirement, goes negative, and the run stops with an
empty timeline (no depletion row is ever emitted). -/
theorem pre_retirement_depletion_stops :
    (∀ (p : Profile) (today : PyDate) (er : ℚ) (ta : Int),
      (List.range (runCount (mkCtx p today er ta) 200 0 (initState p) - 1)).Forall
        (fun (j : ℕ) =>
          0 ≤ (yearBody (mkCtx p today er ta) j
                (iterFrom (mkCtx p today er ta) 0 (initState p) j)).2)) ∧
    (calculate_retirement futureStartProfile ⟨2026, 10, 12⟩ 0 100).timeline = [] ∧
    (yearBody (mkCtx futureStartProfile ⟨2026, 10, 12⟩ 0 100) 0
      (initState futureStartProfile)).2 < 0 ∧
    (mkCtx futureStartProfile ⟨2026, 10, 12⟩ 0 100).base_year <
      (mkCtx futureStartProfile ⟨2026, 10, 12⟩ 0 100).rsd.year := by
  refine ⟨?_, by decide, by decide, by decide⟩
  intro p today er ta
  rw [List.forall_iff_forall_mem]
  intro j hj
  rw [List.mem_range] at hj
  have := runCount_no_step_after_negative (mkCtx p today er ta) j 200 0
    (initState p) (by omega)
  simpa using this

/-! ### Claim C7: tax monotonicity in the taxable percentage

The simulation for an absent `start_date` depends on the current date only
through the calendar-year labels (which cancel out of every monetary
quantity) and through whether the date lies strictly after January 1 (which
decides whether year 25 still carries salary).  The two runs of the §8
scenario are therefore reduced to two representative concrete dates and
compared there. -/

theorem ltB_shift (s : Int) (a b : PyDate) :
    PyDate.ltB ⟨a.year + s, a.month, a.day⟩ ⟨b.year + s, b.month, b.day⟩ =
      PyDate.ltB a b := by
  unfold PyDate.ltB
  simp only [add_lt_add_iff_right]

theorem leB_shift (s : Int) (a b : PyDate) :
    PyDate.leB ⟨a.year + s, a.month, a.day⟩ ⟨b.year + s, b.month, b.day⟩ =
      PyDate.leB a b := by
  unfold PyDate.leB
  rw [ltB_shift s b a]

/-- Normal form of the salary-activity comparison for a January-anchored
year start: strict years decide, the boundary year compares month and day
against January 1. -/
theorem ltB_anchor (Y y E m d : Int) :
    PyDate.ltB ⟨Y + y, 1, 1⟩ ⟨Y + E, m, d⟩ =
      (if y < E then true
       else if E < y then false
       else PyDate.ltB ⟨0, 1, 1⟩ ⟨0, m, d⟩) := by
  unfold PyDate.ltB
  simp only [add_lt_add_iff_left]
  rcases lt_trichotomy y E with h | h | h
  · simp [h]
  · subst h
    simp [lt_irrefl]
  · have h1 : ¬ y < E := not_lt.mpr (le_of_lt h)
    simp [h1, h]

theorem add_months_jan1 (Y m : Int) :
    add_months_to_date ⟨Y, 1, 1⟩ m = ⟨Y + Int.fdiv m 12, Int.emod m 12 + 1, 1⟩ := by
  simp [add_months_to_date]

theorem monthlyAccum_sim (c₁ c₂ : Ctx) (hc : CtxSim c₁ c₂) (y : ℕ)
    (s₁ s₂ : LoopState) (hcv : s₁.current_value = s₂.current_value)
    (hpj : s₁.projected = s₂.projected) :
    monthlyAccum c₁ y s₁ = monthlyAccum c₂ y s₂ := by
  obtain ⟨hP, hG, -, hB1, hB2, hsal, hgov⟩ := hc
  simp only [monthlyAccum]
  have hinf1 : (if c₁.rsd.year ≤ c₁.base_year + (y : Int)
      then (c₁.base_year + (y : Int) - c₁.rsd.year).toNat else y) = y := by
    rw [if_pos (by omega)]
    omega
  have hinf2 : (if c₂.rsd.year ≤ c₂.base_year + (y : Int)
      then (c₂.base_year + (y : Int) - c₂.rsd.year).toNat else y) = y := by
    rw [if_pos (by omega)]
    omega
  rw [hinf1, hinf2, hcv, hpj]
  have hfun : monthStep c₁ ⟨c₁.base_year + (y : Int), c₁.rsd.month, 1⟩
      (PyDate.ltB ⟨c₁.base_year + (y : Int), c₁.rsd.month, 1⟩ c₁.eos_date) y
      s₂.projected =
      monthStep c₂ ⟨c₂.base_year + (y : Int), c₂.rsd.month, 1⟩
      (PyDate.ltB ⟨c₂.base_year + (y : Int), c₂.rsd.month, 1⟩ c₂.eos_date) y
      s₂.projected := by
    funext acc m
    simp only [monthStep]
    rw [hsal y, hgov y m, hP, hG]
  rw [hfun]

theorem yearBody_sim (c₁ c₂ : Ctx) (hc : CtxSim c₁ c₂) (y : ℕ)
    (s₁ s₂ : LoopState) (h : StateRel s₁ s₂) :
    StateRel (yearBody c₁ y s₁).1 (yearBody c₂ y s₂).1 ∧
    (yearBody c₁ y s₁).2 = (yearBody c₂ y s₂).2 := by
  obtain ⟨hcv, hpend, hpj, hsnap, htl⟩ := h
  have hma := monthlyAccum_sim c₁ c₂ hc y s₁ s₂ hcv hpj
  obtain ⟨hP, hG, hT, hB1, hB2, hsal, hgov⟩ := hc
  have hfv : (yearBody c₁ y s₁).2 = (yearBody c₂ y s₂).2 := by
    rw [yearBody_snd, yearBody_snd]
    unfold finalValueOf
    rw [hma, hpend]
  refine ⟨⟨?_, ?_, ?_, ?_, ?_⟩, hfv⟩
  · rw [yearBody_fst_current, yearBody_fst_current]
    unfold finalValueOf
    rw [hma, hpend]
  · show taxThisYear c₁ y s₁ = taxThisYear c₂ y s₂
    unfold taxThisYear
    rw [hma, hcv, hP]
  · show s₁.projected * (1 + c₁.p.government_retirement_adjustment) =
        s₂.projected * (1 + c₂.p.government_retirement_adjustment)
    rw [hpj, hP]
  · rw [yearBody_fst_snapshot, yearBody_fst_snapshot]
    by_cases hy : c₁.base_year + (y : Int) = c₁.rsd.year ∧ s₁.snapshot = none
    · have hy2 : c₂.base_year + (y : Int) = c₂.rsd.year ∧ s₂.snapshot = none :=
        ⟨by omega, hsnap ▸ hy.2⟩
      rw [if_pos hy, if_pos hy2, hcv]
    · have hy2 : ¬ (c₂.base_year + (y : Int) = c₂.rsd.year ∧ s₂.snapshot = none) := by
        intro hcon
        exact hy ⟨by omega, hsnap ▸ hcon.2⟩
      rw [if_neg hy, if_neg hy2, hsnap]
  · rw [yearBody_fst_timeline, yearBody_fst_timeline]
    have hem1 : c₁.rsd.year ≤ c₁.base_year + (y : Int) := by omega
    have hem2 : c₂.rsd.year ≤ c₂.base_year + (y : Int) := by omega
    rw [if_pos hem1, if_pos hem2, List.map_append, List.map_append, htl]
    have hrow : TimelineRow.data (rowOf c₁ y s₁) = TimelineRow.data (rowOf c₂ y s₂) := by
      have hyear : (c₁.base_year + (y : Int)) - c₁.rsd.year + 1 =
          (c₂.base_year + (y : Int)) - c₂.rsd.year + 1 := by omega
      show ((c₁.base_year + (y : Int)) - c₁.rsd.year + 1,
            c₁.p.base_age + (y : Int),
            round2 s₁.current_value,
            round2 (monthlyAccum c₁ y s₁).2.1,
            round2 (monthlyAccum c₁ y s₁).2.2.1,
            round2 (monthlyAccum c₁ y s₁).2.2.2,
            round2 ((monthlyAccum c₁ y s₁).1 - s₁.current_value),
            round2 s₁.pending_tax,
            round2 ((monthlyAccum c₁ y s₁).2.2.1 + (monthlyAccum c₁ y s₁).2.2.2 -
              (monthlyAccum c₁ y s₁).2.1),
            round2 ((monthlyAccum c₁ y s₁).1 - s₁.pending_tax)) = _
      rw [hyear, hma, hcv, hpend, hP]
      rfl
    simp only [List.map_cons, List.map_nil, hrow]

theorem runLoop_sim (c₁ c₂ : Ctx) (hc : CtxSim c₁ c₂) :
    ∀ (fuel y : ℕ) (s₁ s₂ : LoopState), StateRel s₁ s₂ →
      StateRel (runLoop c₁ fuel y s₁) (runLoop c₂ fuel y s₂) := by
  intro fuel
  induction fuel with
  | zero => intro y s₁ s₂ h; simpa [runLoop] using h
  | succ fuel ih =>
    intro y s₁ s₂ h
    have hP : c₁.p = c₂.p := hc.1
    have hT : c₁.targetAge = c₂.targetAge := hc.2.2.1
    by_cases hage : c₁.targetAge < c₁.p.base_age + (y : Int)
    · rw [show runLoop c₁ (fuel + 1) y s₁ = s₁ by simp [runLoop, hage],
          show runLoop c₂ (fuel + 1) y s₂ = s₂ by simp [runLoop, hT ▸ hP ▸ hage]]
      exact h
    · have hage2 : ¬ c₂.targetAge < c₂.p.base_age + (y : Int) := by
        rw [← hT, ← hP]; exact hage
      obtain ⟨hstep, hfv⟩ := yearBody_sim c₁ c₂ hc y s₁ s₂ h
      by_cases hneg : (yearBody c₁ y s₁).2 < 0
      · rw [show runLoop c₁ (fuel + 1) y s₁ = (yearBody c₁ y s₁).1 by
            simp [runLoop, hage, hneg],
          show runLoop c₂ (fuel + 1) y s₂ = (yearBody c₂ y s₂).1 by
            simp [runLoop, hage2, hfv ▸ hneg]]
        exact hstep
      · have hneg2 : ¬ (yearBody c₂ y s₂).2 < 0 := by rw [← hfv]; exact hneg
        rw [show runLoop c₁ (fuel + 1) y s₁ =
              runLoop c₁ fuel (y + 1) (yearBody c₁ y s₁).1 by
            simp [runLoop, hage, hneg],
          show runLoop c₂ (fuel + 1) y s₂ =
              runLoop c₂ fuel (y + 1) (yearBody c₂ y s₂).1 by
            simp [runLoop, hage2, hneg2]]
        exact ih (y + 1) _ _ hstep

theorem leB_shift2 (s g x mm : Int) :
    PyDate.leB ⟨s + g, 1, 1⟩ ⟨s + x, mm, 1⟩ = PyDate.leB ⟨g, 1, 1⟩ ⟨x, mm, 1⟩ := by
  have h := leB_shift s ⟨g, 1, 1⟩ ⟨x, mm, 1⟩
  simpa [add_comm] using h

/-- For a profile with no explicit start date, two well-formed current
dates that agree on being after January 1 produce runs with identical
non-date timeline content. -/
theorem calc_timeline_data_shift (p : Profile) (hp : p.start_date = StartDate.absent)
    (t₁ t₂ : PyDate) (h₁ : validToday t₁) (h₂ : validToday t₂)
    (hb : afterJan1 t₁ = afterJan1 t₂) (er : ℚ) (ta : Int) :
    (calculate_retirement p t₁ er ta).timeline.map TimelineRow.data =
      (calculate_retirement p t₂ er ta).timeline.map TimelineRow.data := by
  have hrsd1 : (mkCtx p t₁ er ta).rsd = ⟨t₁.year, 1, 1⟩ := by
    simp [mkCtx, timelineStartDate, hp]
  have hrsd2 : (mkCtx p t₂ er ta).rsd = ⟨t₂.year, 1, 1⟩ := by
    simp [mkCtx, timelineStartDate, hp]
  have hb1 : (mkCtx p t₁ er ta).base_year = t₁.year :=
    mkCtx_base_year_absent p hp t₁ h₁ er ta
  have hb2 : (mkCtx p t₂ er ta).base_year = t₂.year :=
    mkCtx_base_year_absent p hp t₂ h₂ er ta
  have hgd1 : (mkCtx p t₁ er ta).gov_date =
      ⟨t₁.year + p.government_retirement_start_years, 1, 1⟩ := by
    simp [mkCtx, timelineStartDate, hp]
  have hgd2 : (mkCtx p t₂ er ta).gov_date =
      ⟨t₂.year + p.government_retirement_start_years, 1, 1⟩ := by
    simp [mkCtx, timelineStartDate, hp]
  have heos1 : (mkCtx p t₁ er ta).eos_date =
      ⟨t₁.year + p.end_of_salary_years, t₁.month, t₁.day⟩ := rfl
  have heos2 : (mkCtx p t₂ er ta).eos_date =
      ⟨t₂.year + p.end_of_salary_years, t₂.month, t₂.day⟩ := rfl
  have hsim : CtxSim (mkCtx p t₁ er ta) (mkCtx p t₂ er ta) := by
    refine ⟨rfl, rfl, rfl, ?_, ?_, ?_, ?_⟩
    · rw [hb1, hrsd1]
    · rw [hb2, hrsd2]
    · intro y
      simp only [hb1, hb2, hrsd1, hrsd2, heos1, heos2]
      rw [ltB_anchor t₁.year (y : Int) p.end_of_salary_years t₁.month t₁.day,
          ltB_anchor t₂.year (y : Int) p.end_of_salary_years t₂.month t₂.day]
      rw [show PyDate.ltB ⟨0, 1, 1⟩ ⟨0, t₁.month, t₁.day⟩ = afterJan1 t₁ from rfl,
          show PyDate.ltB ⟨0, 1, 1⟩ ⟨0, t₂.month, t₂.day⟩ = afterJan1 t₂ from rfl, hb]
    · intro y m
      simp only [hb1, hb2, hrsd1, hrsd2, hgd1, hgd2]
      rw [add_months_jan1, add_months_jan1]
      simp only [add_assoc]
      rw [leB_shift2, leB_shift2]
  have hrel := runLoop_sim (mkCtx p t₁ er ta) (mkCtx p t₂ er ta) hsim 200 0
    (initState p) (initState p) ⟨rfl, rfl, rfl, rfl, rfl⟩
  rw [calc_timeline_def, calc_timeline_def]
  exact hrel.2.2.2.2

theorem list_forall_of_all {α : Type} (p : α → Prop) [DecidablePred p] :
    ∀ l : List α, (l.all fun a => decide (p a)) = true → l.Forall p := by
  intro l h
  rw [List.forall_iff_forall_mem]
  intro x hx
  exact of_decide_eq_true (List.all_eq_true.mp h x hx)

/-- Transfer of a Boolean pairwise check over zipped lists along equal
images under a projection, for checks that factor through the projection. -/
theorem all_zip_transfer {α β : Type} (f : α → β) (q : α × α → Bool)
    (hfac : ∀ a a' b b', f a = f a' → f b = f b' →
      q (a, b) = true → q (a', b') = true) :
    ∀ (l₁ l₁' l₂ l₂' : List α),
      l₁.map f = l₁'.map f → l₂.map f = l₂'.map f →
      (l₁'.zip l₂').all q = true →
      (l₁.zip l₂).all q = true := by
  intro l₁
  induction l₁ with
  | nil => intro l₁' l₂ l₂' _ _ _; simp [List.zip]
  | cons a as ih =>
    intro l₁' l₂ l₂' h1 h2 h
    cases l₂ with
    | nil => simp
    | cons b bs =>
      cases l₁' with
      | nil => simp at h1
      | cons a' as' =>
        cases l₂' with
        | nil => simp at h2
        | cons b' bs' =>
          simp only [List.map_cons, List.cons.injEq] at h1 h2
          rw [List.zip_cons_cons] at h ⊢
          rw [List.all_cons, Bool.and_eq_true] at h ⊢
          exact ⟨hfac a' a b' b h1.1.symm h2.1.symm h.1,
                 ih as' bs bs' h1.2 h2.2 h.2⟩

/-- Row-to-row tax comparison only depends on a row's non-date payload. -/
theorem taxes_factor (a a' b b' : TimelineRow)
    (ha : TimelineRow.data a = TimelineRow.data a')
    (hb : TimelineRow.data b = TimelineRow.data b')
    (h : a.taxes_over_investments ≤ b.taxes_over_investments) :
    a'.taxes_over_investments ≤ b'.taxes_over_investments := by
  have h1 : a.taxes_over_investments = a'.taxes_over_investments := by
    have := congrArg (fun x => x.2.2.2.2.2.2.2.1) ha
    simpa [TimelineRow.data] using this
  have h2 : b.taxes_over_investments = b'.taxes_over_investments := by
    have := congrArg (fun x => x.2.2.2.2.2.2.2.1) hb
    simpa [TimelineRow.data] using this
  rw [← h1, ← h2]
  exact h

/-- The concrete §8 comparison at the representative date 2026-10-12. -/
theorem scenario_tax_cmp_oct :
    (((calculate_retirement (scenarioProfilePct (6/10)) ⟨2026, 10, 12⟩ (7/100) 100).timeline).zip
      ((calculate_retirement (scenarioProfilePct 1) ⟨2026, 10, 12⟩ (7/100) 100).timeline)).all
      (fun pr => decide (pr.1.taxes_over_investments ≤ pr.2.taxes_over_investments)) = true := by
  decide

/-- The concrete §8 comparison at the representative date 2026-01-01. -/
theorem scenario_tax_cmp_jan :
    (((calculate_retirement (scenarioProfilePct (6/10)) ⟨2026, 1, 1⟩ (7/100) 100).timeline).zip
      ((calculate_retirement (scenarioProfilePct 1) ⟨2026, 1, 1⟩ (7/100) 100).timeline)).all
      (fun pr => decide (pr.1.taxes_over_investments ≤ pr.2.taxes_over_investments)) = true := by
  decide

/-- Claim C7: for the §8 scenario profile at any well-formed current date,
every row present in both runs (rows are paired by index via `zip`) shows
taxes with the 0.6 taxable percentage no larger than with 1.0, all other
inputs equal. -/
theorem tax_pct_monotone (t : PyDate) (ht : validToday t) :
    (((calculate_retirement (scenarioProfilePct (6/10)) t (7/100) 100).timeline).zip
      ((calculate_retirement (scenarioProfilePct 1) t (7/100) 100).timeline)).all
      (fun pr => decide (pr.1.taxes_over_investments ≤ pr.2.taxes_over_investments)) = true := by
  by_cases hcase : afterJan1 t = true
  · have hb : afterJan1 t = afterJan1 (⟨2026, 10, 12⟩ : PyDate) := by
      rw [hcase]; decide
    have e6 := calc_timeline_data_shift (scenarioProfilePct (6/10)) rfl t
      ⟨2026, 10, 12⟩ ht (by decide) hb (7/100) 100
    have e10 := calc_timeline_data_shift (scenarioProfilePct 1) rfl t
      ⟨2026, 10, 12⟩ ht (by decide) hb (7/100) 100
    exact all_zip_transfer TimelineRow.data
      (fun pr => decide (pr.1.taxes_over_investments ≤ pr.2.taxes_over_investments))
      (fun a a' b b' ha hb2 h =>
        decide_eq_true (taxes_factor a a' b b' ha hb2 (of_decide_eq_true h)))
      _ _ _ _ e6 e10 scenario_tax_cmp_oct
  · have hfalse : afterJan1 t = false := by
      revert hcase
      cases afterJan1 t <;> simp
    have hb : afterJan1 t = afterJan1 (⟨2026, 1, 1⟩ : PyDate) := by
      rw [hfalse]; decide
    have e6 := calc_timeline_data_shift (scenarioProfilePct (6/10)) rfl t
      ⟨2026, 1, 1⟩ ht (by decide) hb (7/100) 100
    have e10 := calc_timeline_data_shift (scenarioProfilePct 1) rfl t
      ⟨2026, 1, 1⟩ ht (by decide) hb (7/100) 100
    exact all_zip_transfer TimelineRow.data
      (fun pr => decide (pr.1.taxes_over_investments ≤ pr.2.taxes_over_investments))
      (fun a a' b b' ha hb2 h =>
        decide_eq_true (taxes_factor a a' b b' ha hb2 (of_decide_eq_true h)))
      _ _ _ _ e6 e10 scenario_tax_cmp_jan

theorem validToday_oct : validToday ⟨2026, 10, 12⟩ := by decide

/-- Witness for C7: the concrete current date 2026-10-12. -/
theorem tax_pct_monotone_witness :
    validToday ⟨2026, 10, 12⟩ ∧
    (((calculate_retirement (scenarioProfilePct (6/10)) ⟨2026, 10, 12⟩ (7/100) 100).timeline).zip
      ((calculate_retirement (scenarioProfilePct 1) ⟨2026, 10, 12⟩ (7/100) 100).timeline)).all
      (fun pr => decide (pr.1.taxes_over_investments ≤ pr.2.taxes_over_investments)) = true :=
  ⟨validToday_oct, tax_pct_monotone ⟨2026, 10, 12⟩ validToday_oct⟩
